import Mathlib

/-!
Shallow embedding of the client session engine of `src/src/lib/client/CClient.cpp`
(the `CClient` class of the synergy-through-usb repository).

Each member function of `CClient` that mutates session state is translated into a
Lean function `ClientState → ClientState × List Action`: the returned state models
the `m_*` member fields after the call, and the returned list is the ordered trace
of externally visible effects the call performs (events queued on the event queue,
wire messages written, screen calls, teardown steps).  Pointer-valued members
(`m_stream`, `m_timer`, `m_server`, `m_cryptoStream`) are modelled as `Bool`
presence flags; event-queue handler registrations performed by the `setup…` /
`cleanup…` helpers are modelled as `Bool` subscription flags, since registration
state is what decides which handlers the event loop can invoke.
-/

namespace SynergyClient

/-- Modelled from the spec: `ProtocolTypes.h` (which defines `kProtocolMajorVersion`,
`kProtocolMinorVersion` and `kClipboardEnd`) is not under `src/`.  The spec's
scenarios fix the compiled-in protocol version at (1, 6) ("client is (1,6)"). -/
def kProtocolMajorVersion : Int := 1

/-- Modelled from the spec: compiled-in minor protocol version, (1, 6) per the
spec's end-to-end scenarios. -/
def kProtocolMinorVersion : Int := 6

/-- Modelled from the spec: the clipboard-id set is "a small fixed set"
(primary and secondary); `kClipboardEnd` itself lives in `ProtocolTypes.h`,
outside `src/`.  Its exact value is irrelevant to every claim. -/
abbrev kClipboardEnd : Nat := 2

abbrev ClipboardID := Fin kClipboardEnd

/-- The member-field state of a `CClient` object (CClient.cpp, constructor at
lines 47-90).  Pointers are presence booleans; the three clipboard arrays
`m_ownClipboard`, `m_sentClipboard`, `m_timeClipboard` plus `m_dataClipboard`
are functions out of `ClipboardID`.  `cryptoMode` models the immutable
`m_crypto.m_mode != kDisabled` configuration. -/
structure ClientState where
  stream : Bool
  cryptoStream : Bool
  timer : Bool
  server : Bool
  ready : Bool
  active : Bool
  suspended : Bool
  connectOnResume : Bool
  /-- handlers adopted by `setupConnecting` are registered -/
  connectingSub : Bool
  /-- handlers adopted by `setupConnection` are registered -/
  connectionSub : Bool
  /-- handlers adopted by `setupScreen` are registered -/
  screenSub : Bool
  ownClipboard : ClipboardID → Bool
  sentClipboard : ClipboardID → Bool
  timeClipboard : ClipboardID → Nat
  dataClipboard : ClipboardID → String
  cryptoMode : Bool
  name : String

/-- Externally visible effects of a `CClient` member call, in program order.
The `cleanup…Call` constructors mark the execution of the corresponding
`CClient::cleanup…` helper; `streamDestroyed` marks a direct
`delete m_stream; m_stream = NULL;` statement (or the deletion inside
`cleanupConnection`) actually freeing a live stream. -/
inductive Action where
  | cleanupTimerCall
  | cleanupScreenCall
  | cleanupConnectingCall
  | cleanupConnectionCall
  | streamDestroyed
  | emitConnectionFailed (msg : String) (retry : Bool)
  | emitDisconnected
  | emitConnected
  | sendHelloBack (major minor : Int) (name : String)
  | notifyGrabClipboard (id : ClipboardID)
  | clipboardOpen (time : Nat)
  | transmitClipboard (id : ClipboardID) (data : String)
  | transportConnect
  | screenEnable
  | screenDisable
  | screenEnter (mask : Nat)
  | screenLeave
  | screenMouseMove (x y : Int)
  | screenSetClipboard (id : ClipboardID)
  | screenGrabClipboard (id : ClipboardID)
  | notifyInfoChanged
  | setCryptoIv (iv : List Nat)
  | synthesizeInputReady
  deriving DecidableEq

/-- `CClient::sendConnectionFailedEvent` (lines 457-464): builds a `CFailInfo`
with `m_retry = true` and queues the ConnectionFailed event. -/
def sendConnectionFailedEvent (msg : String) : Action :=
  Action.emitConnectionFailed msg true

/-- `CClient::cleanupTimer` (lines 583-591): if the timer exists, remove its
handler, delete it and null the member. -/
def cleanupTimer (s : ClientState) : ClientState × List Action :=
  if s.timer then ({ s with timer := false }, [Action.cleanupTimerCall])
  else (s, [Action.cleanupTimerCall])

/-- `CClient::cleanupScreen` (lines 566-581): if the server proxy exists,
disable the screen when `m_ready`, remove the shape/clipboard handlers and
destroy the proxy. -/
def cleanupScreen (s : ClientState) : ClientState × List Action :=
  if s.server then
    ({ s with ready := false, screenSub := false, server := false },
      Action.cleanupScreenCall :: (if s.ready then [Action.screenDisable] else []))
  else (s, [Action.cleanupScreenCall])

/-- `CClient::cleanupConnecting` (lines 536-545): if a stream exists, remove the
transport connected/connection-failed handlers. -/
def cleanupConnecting (s : ClientState) : ClientState × List Action :=
  if s.stream then ({ s with connectingSub := false }, [Action.cleanupConnectingCall])
  else (s, [Action.cleanupConnectingCall])

/-- `CClient::cleanupConnection` (lines 547-564): if a stream exists, remove the
five stream handlers and delete the stream.  Note the source never nulls
`m_cryptoStream` here. -/
def cleanupConnection (s : ClientState) : ClientState × List Action :=
  if s.stream then
    ({ s with connectionSub := false, stream := false },
      [Action.cleanupConnectionCall, Action.streamDestroyed])
  else (s, [Action.cleanupConnectionCall])

/-- A literal `delete m_stream; m_stream = NULL;` statement (connect catch block,
`handleConnectionFailed`, `handleConnectTimeout`).  Deleting a null stream has
no effect. -/
def destroyStream (s : ClientState) : ClientState × List Action :=
  if s.stream then ({ s with stream := false }, [Action.streamDestroyed])
  else (s, [])

/-- `CClient::setupScreen` (lines 508-523): `m_ready = false`, construct the
`CServerProxy`, adopt the shape-changed and clipboard-grabbed handlers. -/
def setupScreen (s : ClientState) : ClientState :=
  { s with ready := false, server := true, screenSub := true }

/-- Outcome of the externals touched inside `CClient::connect`'s try block:
`resolveErr` is a thrown resolution failure (before any stream is built),
`connectErr` is a throw from `socket->connect` (after the pipeline, the
connecting subscriptions and the timer are in place). -/
structure ConnectEnv where
  resolveErr : Option String
  connectErr : Option String

/-- `CClient::connect` (lines 113-175).  Early-outs: an existing stream, or
`m_suspended` (which records `m_connectOnResume = true`).  Otherwise resolve,
build the pipeline (socket, optional filter, packet filter, optional crypto
stream), `setupConnecting`, `setupTimer`, and ask the socket to connect; a
throw anywhere in the try block runs `cleanupTimer`, `cleanupConnecting`,
deletes the stream and queues ConnectionFailed. -/
def connect (env : ConnectEnv) (s : ClientState) : ClientState × List Action :=
  if s.stream then (s, [])
  else if s.suspended then ({ s with connectOnResume := true }, [])
  else
    match env.resolveErr with
    | some msg =>
        let r1 := cleanupTimer s
        let r2 := cleanupConnecting r1.1
        let r3 := destroyStream r2.1
        (r3.1, r1.2 ++ r2.2 ++ r3.2 ++ [sendConnectionFailedEvent msg])
    | none =>
        let sTim : ClientState :=
          { s with stream := true,
                   cryptoStream := s.cryptoMode || s.cryptoStream,
                   connectingSub := true,
                   timer := true }
        match env.connectErr with
        | some msg =>
            let r1 := cleanupTimer sTim
            let r2 := cleanupConnecting r1.1
            let r3 := destroyStream r2.1
            (r3.1, r1.2 ++ r2.2 ++ r3.2 ++ [sendConnectionFailedEvent msg])
        | none => (sTim, [Action.transportConnect])

/-- `CClient::disconnect` (lines 177-191): clear `m_connectOnResume`, run the
four cleanups, then queue ConnectionFailed (when a message is supplied) or
Disconnected. -/
def disconnect (msg : Option String) (s : ClientState) : ClientState × List Action :=
  let r1 := cleanupTimer { s with connectOnResume := false }
  let r2 := cleanupScreen r1.1
  let r3 := cleanupConnecting r2.1
  let r4 := cleanupConnection r3.1
  (r4.1, r1.2 ++ r2.2 ++ r3.2 ++ r4.2 ++
    [match msg with
     | some m => sendConnectionFailedEvent m
     | none => Action.emitDisconnected])

/-- `CClient::handshakeComplete` (lines 193-199): called by the server proxy
once the remainder of the handshake is done. -/
def handshakeComplete (s : ClientState) : ClientState × List Action :=
  ({ s with ready := true }, [Action.screenEnable, Action.emitConnected])

/-- `CClient::setDecryptIv` (lines 201-207): forwards to the crypto stream only
when `m_cryptoStream` is non-null. -/
def setDecryptIv (iv : List Nat) (s : ClientState) : ClientState × List Action :=
  if s.cryptoStream then (s, [Action.setCryptoIv iv]) else (s, [])

/-- `CClient::enter` (lines 272-278). -/
def enter (x y : Int) (mask : Nat) (s : ClientState) : ClientState × List Action :=
  ({ s with active := true },
    [Action.screenMouseMove x y, Action.screenEnter mask])

/-- The screen-side clipboard contents `CClient::sendClipboard` fetches through
`m_screen->getClipboard`: per slot, the current timestamp and the bytes its
marshalling produces (`CClipboard` itself lives outside `src/`). -/
structure ClipboardEnv where
  time : ClipboardID → Nat
  data : ClipboardID → String

/-- `CClient::sendClipboard` (lines 416-449): open the clipboard announcing the
last-seen time, fetch the current contents, and if the time is 0 or changed,
record the new time, marshall, and transmit when not yet sent or the bytes
differ (recording them as sent). -/
def sendClipboard (env : ClipboardEnv) (id : ClipboardID) (s : ClientState) :
    ClientState × List Action :=
  let opened := [Action.clipboardOpen (s.timeClipboard id)]
  if s.timeClipboard id = 0 ∨ env.time id ≠ s.timeClipboard id then
    let s1 := { s with timeClipboard := Function.update s.timeClipboard id (env.time id) }
    let data := env.data id
    if s.sentClipboard id = false ∨ data ≠ s.dataClipboard id then
      ({ s1 with sentClipboard := Function.update s1.sentClipboard id true,
                 dataClipboard := Function.update s1.dataClipboard id data },
        opened ++ [Action.transmitClipboard id data])
    else (s1, opened)
  else (s, opened)

/-- The loop body of `CClient::leave`: for each id in order, send the clipboard
when `m_ownClipboard[id]`. -/
def sendClipboardAll (env : ClipboardEnv) (ids : List ClipboardID) (s : ClientState) :
    ClientState × List Action :=
  match ids with
  | [] => (s, [])
  | id :: rest =>
      if s.ownClipboard id then
        let r := sendClipboard env id s
        let r2 := sendClipboardAll env rest r.1
        (r2.1, r.2 ++ r2.2)
      else sendClipboardAll env rest s

/-- `CClient::leave` (lines 280-295): tell the screen, clear `m_active`, then
flush every locally owned clipboard slot. -/
def leave (env : ClipboardEnv) (s : ClientState) : ClientState × List Action :=
  let s1 := { s with active := false }
  let r := sendClipboardAll env (List.finRange kClipboardEnd) s1
  (r.1, Action.screenLeave :: r.2)

/-- `CClient::setClipboard` (lines 297-303). -/
def setClipboard (id : ClipboardID) (s : ClientState) : ClientState × List Action :=
  ({ s with ownClipboard := Function.update s.ownClipboard id false,
            sentClipboard := Function.update s.sentClipboard id false },
    [Action.screenSetClipboard id])

/-- `CClient::grabClipboard` (lines 305-311). -/
def grabClipboard (id : ClipboardID) (s : ClientState) : ClientState × List Action :=
  ({ s with ownClipboard := Function.update s.ownClipboard id false,
            sentClipboard := Function.update s.sentClipboard id false },
    [Action.screenGrabClipboard id])

/-- `CClient::handleConnected` (lines 593-606): swap the connecting
subscriptions for the connection subscriptions and reset the clipboard state
(`m_dataClipboard` is not reset). -/
def handleConnected (s : ClientState) : ClientState × List Action :=
  let r1 := cleanupConnecting s
  ({ r1.1 with connectionSub := true,
               ownClipboard := fun _ => false,
               sentClipboard := fun _ => false,
               timeClipboard := fun _ => 0 }, r1.2)

/-- `CClient::handleConnectionFailed` (lines 608-621). -/
def handleConnectionFailed (msg : String) (s : ClientState) : ClientState × List Action :=
  let r1 := cleanupTimer s
  let r2 := cleanupConnecting r1.1
  let r3 := destroyStream r2.1
  (r3.1, r1.2 ++ r2.2 ++ r3.2 ++ [sendConnectionFailedEvent msg])

/-- `CClient::handleConnectTimeout` (lines 623-633). -/
def handleConnectTimeout (s : ClientState) : ClientState × List Action :=
  let r1 := cleanupTimer s
  let r2 := cleanupConnecting r1.1
  let r3 := cleanupConnection r2.1
  let r4 := destroyStream r3.1
  (r4.1, r1.2 ++ r2.2 ++ r3.2 ++ r4.2 ++ [sendConnectionFailedEvent "Timed out"])

/-- `CClient::handleOutputError` (lines 635-643). -/
def handleOutputError (s : ClientState) : ClientState × List Action :=
  let r1 := cleanupTimer s
  let r2 := cleanupScreen r1.1
  let r3 := cleanupConnection r2.1
  (r3.1, r1.2 ++ r2.2 ++ r3.2 ++ [Action.emitDisconnected])

/-- `CClient::handleDisconnected` (lines 645-653). -/
def handleDisconnected (s : ClientState) : ClientState × List Action :=
  let r1 := cleanupTimer s
  let r2 := cleanupScreen r1.1
  let r3 := cleanupConnection r2.1
  (r3.1, r1.2 ++ r2.2 ++ r3.2 ++ [Action.emitDisconnected])

/-- `CClient::handleShapeChanged` (lines 655-660). -/
def handleShapeChanged (s : ClientState) : ClientState × List Action :=
  (s, [Action.notifyInfoChanged])

/-- `CClient::handleClipboardGrabbed` (lines 662-681): notify the server proxy
of ownership first, then mark the slot owned/unsent with time 0, and send the
payload immediately only when not active. -/
def handleClipboardGrabbed (env : ClipboardEnv) (id : ClipboardID) (s : ClientState) :
    ClientState × List Action :=
  let s1 := { s with ownClipboard := Function.update s.ownClipboard id true,
                     sentClipboard := Function.update s.sentClipboard id false,
                     timeClipboard := Function.update s.timeClipboard id 0 }
  if s1.active then (s1, [Action.notifyGrabClipboard id])
  else
    let r := sendClipboard env id s1
    (r.1, Action.notifyGrabClipboard id :: r.2)

/-- Modelled from the spec: `XIncompatibleClient(major, minor).what()` lives in
`XSynergy` outside `src/`; per the spec the message names the incompatible
version, e.g. `ConnectionFailed("incompatible version 1.2")`. -/
def incompatibleVersionMsg (major minor : Int) : String :=
  "incompatible version " ++ toString major ++ "." ++ toString minor

/-- `CClient::handleHello` (lines 683-721).  `hello` is the result of
`CProtocolUtil::readf` on the first frame: `none` when the frame is malformed,
otherwise the advertised `(major, minor)`.  `streamReady` is
`m_stream->isReady()` at the end of the success path. -/
def handleHello (hello : Option (Int × Int)) (streamReady : Bool) (s : ClientState) :
    ClientState × List Action :=
  match hello with
  | none =>
      let r1 := cleanupTimer s
      let r2 := cleanupConnection r1.1
      (r2.1, sendConnectionFailedEvent "Protocol error from server" :: (r1.2 ++ r2.2))
  | some (major, minor) =>
      if major < kProtocolMajorVersion ∨
          (major = kProtocolMajorVersion ∧ minor < kProtocolMinorVersion) then
        let r1 := cleanupTimer s
        let r2 := cleanupConnection r1.1
        (r2.1, sendConnectionFailedEvent (incompatibleVersionMsg major minor) :: (r1.2 ++ r2.2))
      else
        let s1 := setupScreen s
        let r1 := cleanupTimer s1
        (r1.1, Action.sendHelloBack kProtocolMajorVersion kProtocolMinorVersion s.name
                 :: (r1.2 ++ (if streamReady then [Action.synthesizeInputReady] else [])))

/-- `CClient::handleSuspend` (lines 723-731): mark suspended, snapshot
`isConnected()` (`m_server != NULL`), disconnect with no message, then set
`m_connectOnResume` to the snapshot. -/
def handleSuspend (s : ClientState) : ClientState × List Action :=
  let s1 := { s with suspended := true }
  let wasConnected := s1.server
  let r := disconnect none s1
  ({ r.1 with connectOnResume := wasConnected }, r.2)

/-- `CClient::handleResume` (lines 733-742): clear suspended; if
`m_connectOnResume`, clear it and call `connect()`. -/
def handleResume (env : ConnectEnv) (s : ClientState) : ClientState × List Action :=
  let s1 := { s with suspended := false }
  if s1.connectOnResume then connect env { s1 with connectOnResume := false }
  else (s1, [])

/-- The member-field state right after the `CClient` constructor
(lines 47-90): every pointer null, every flag false, clipboard arrays zeroed. -/
def initState (name : String) (cryptoMode : Bool) : ClientState :=
  { stream := false, cryptoStream := false, timer := false, server := false,
    ready := false, active := false, suspended := false, connectOnResume := false,
    connectingSub := false, connectionSub := false, screenSub := false,
    ownClipboard := fun _ => false, sentClipboard := fun _ => false,
    timeClipboard := fun _ => 0, dataClipboard := fun _ => "",
    cryptoMode := cryptoMode, name := name }

/-- The spec's connection state machine states (§4.4); `Resolving` and
`Terminating` are transient inside a handler and never observable between
completed handler invocations. -/
inductive Phase where
  | Idle
  | Connecting
  | AwaitingHello
  | Active
  deriving DecidableEq

/-- The abstraction from the concrete member fields to the spec's state machine
state: a live server proxy means Active; otherwise the registered
subscriptions tell Connecting from AwaitingHello; nothing set up means Idle. -/
def phase (s : ClientState) : Phase :=
  if s.server then Phase.Active
  else if s.connectionSub then Phase.AwaitingHello
  else if s.connectingSub then Phase.Connecting
  else Phase.Idle

/-- Teardown steps of a trace: the four `cleanup…` helpers and stream
destruction. -/
def isTeardown : Action → Bool
  | Action.cleanupTimerCall => true
  | Action.cleanupScreenCall => true
  | Action.cleanupConnectingCall => true
  | Action.cleanupConnectionCall => true
  | Action.streamDestroyed => true
  | _ => false

/-- Lifecycle events queued on the event queue: Connected, ConnectionFailed,
Disconnected. -/
def isLifecycleEmit : Action → Bool
  | Action.emitConnectionFailed _ _ => true
  | Action.emitDisconnected => true
  | Action.emitConnected => true
  | _ => false

/-- The clipboard transmissions of a trace. -/
def transmitted (tr : List Action) : List Action :=
  tr.filter fun a =>
    match a with
    | Action.transmitClipboard _ _ => true
    | _ => false

/-- The lifecycle events of a trace, in order. -/
def lifecycleEvents (tr : List Action) : List Action :=
  tr.filter fun a => isLifecycleEmit a

/-- Every teardown step of the trace happens strictly before every lifecycle
event of the trace: from the first lifecycle emit onward, the trace contains
no teardown step. -/
def teardownPrecedesEmit (tr : List Action) : Bool :=
  (tr.dropWhile fun a => !isLifecycleEmit a).all fun a => !isTeardown a

/-- ConnectionFailed events whose retry hint is false. -/
def retryFalseEvents (tr : List Action) : List Action :=
  tr.filter fun a =>
    match a with
    | Action.emitConnectionFailed _ false => true
    | _ => false

/-- One completed handler invocation, as dispatchable by the event loop: public
API calls (`connect`, `disconnect`, `setDecryptIv`) and screen suspend/resume
events can arrive at any time; transport events require the `setupConnecting`
subscriptions; stream events require the `setupConnection` subscriptions (the
first inbound frame reaching `handleHello` only while no server proxy has
taken over the stream); the timer event requires a live timer; screen
shape/clipboard events require the `setupScreen` subscriptions; calls made by
the server proxy (`enter`, `leave`, `setClipboard`, `grabClipboard`,
`handshakeComplete`) require the proxy to exist. -/
inductive Step : ClientState → ClientState → Prop where
  | connect (env : ConnectEnv) (s : ClientState) : Step s (connect env s).1
  | disconnect (msg : Option String) (s : ClientState) : Step s (disconnect msg s).1
  | setDecryptIv (iv : List Nat) (s : ClientState) : Step s (setDecryptIv iv s).1
  | suspend (s : ClientState) : Step s (handleSuspend s).1
  | resume (env : ConnectEnv) (s : ClientState) : Step s (handleResume env s).1
  | connected (s : ClientState) (h : s.connectingSub = true) :
      Step s (handleConnected s).1
  | connectionFailed (msg : String) (s : ClientState) (h : s.connectingSub = true) :
      Step s (handleConnectionFailed msg s).1
  | connectTimeout (s : ClientState) (h : s.timer = true) :
      Step s (handleConnectTimeout s).1
  | outputError (s : ClientState) (h : s.connectionSub = true) :
      Step s (handleOutputError s).1
  | disconnected (s : ClientState) (h : s.connectionSub = true) :
      Step s (handleDisconnected s).1
  | hello (hi : Option (Int × Int)) (r : Bool) (s : ClientState)
      (h : s.connectionSub = true) (h2 : s.server = false) :
      Step s (handleHello hi r s).1
  | shapeChanged (s : ClientState) (h : s.screenSub = true) :
      Step s (handleShapeChanged s).1
  | clipboardGrabbed (env : ClipboardEnv) (id : ClipboardID) (s : ClientState)
      (h : s.screenSub = true) :
      Step s (handleClipboardGrabbed env id s).1
  | enter (x y : Int) (mask : Nat) (s : ClientState) (h : s.server = true) :
      Step s (enter x y mask s).1
  | leave (env : ClipboardEnv) (s : ClientState) (h : s.server = true) :
      Step s (leave env s).1
  | setClipboard (id : ClipboardID) (s : ClientState) (h : s.server = true) :
      Step s (setClipboard id s).1
  | grabClipboard (id : ClipboardID) (s : ClientState) (h : s.server = true) :
      Step s (grabClipboard id s).1
  | handshakeComplete (s : ClientState) (h : s.server = true) :
      Step s (handshakeComplete s).1

/-- States reachable from the freshly constructed client by completed handler
invocations. -/
inductive Reachable : ClientState → Prop where
  | init (name : String) (cryptoMode : Bool) : Reachable (initState name cryptoMode)
  | step {s s' : ClientState} : Reachable s → Step s s' → Reachable s'

/-- The inductive invariant of the session state machine, strengthening the
spec's §8 invariants with the subscription bookkeeping facts needed for
induction. -/
def Inv (s : ClientState) : Prop :=
  (s.timer = true → s.server = false ∧ (s.connectingSub = true ∨ s.connectionSub = true)) ∧
  (s.stream = true →
    s.connectingSub = true ∨ s.connectionSub = true ∨ s.server = true) ∧
  (s.connectingSub = true → s.stream = true) ∧
  (s.connectionSub = true → s.stream = true) ∧
  (¬(s.connectingSub = true ∧ s.connectionSub = true)) ∧
  (s.server = true → s.stream = true) ∧
  (s.screenSub = s.server) ∧
  (s.connectingSub = true → s.server = false)

theorem cleanupTimer_fst (s : ClientState) :
    (cleanupTimer s).1 = { s with timer := false } := by
  unfold cleanupTimer
  split
  · rfl
  · next h => cases s; simp_all

theorem cleanupScreen_fst (s : ClientState) :
    (cleanupScreen s).1 =
      if s.server = true then { s with ready := false, screenSub := false, server := false }
      else s := by
  unfold cleanupScreen
  split <;> simp_all

theorem cleanupConnecting_fst (s : ClientState) :
    (cleanupConnecting s).1 =
      if s.stream = true then { s with connectingSub := false } else s := by
  unfold cleanupConnecting
  split <;> simp_all

theorem cleanupConnection_fst (s : ClientState) :
    (cleanupConnection s).1 =
      if s.stream = true then { s with connectionSub := false, stream := false } else s := by
  unfold cleanupConnection
  split <;> simp_all

theorem destroyStream_fst (s : ClientState) :
    (destroyStream s).1 =
      if s.stream = true then { s with stream := false } else s := by
  unfold destroyStream
  split <;> simp_all

/-- The member fields the state-machine invariant talks about. -/
def core (s : ClientState) : Bool × Bool × Bool × Bool × Bool × Bool :=
  (s.stream, s.timer, s.server, s.connectingSub, s.connectionSub, s.screenSub)

theorem Inv_of_core {s t : ClientState} (h : core s = core t) (hs : Inv s) : Inv t := by
  unfold core at h
  injection h with e1 h
  injection h with e2 h
  injection h with e3 h
  injection h with e4 h
  injection h with e5 e6
  unfold Inv at hs ⊢
  rw [← e1, ← e2, ← e3, ← e4, ← e5, ← e6]
  exact hs

theorem sendClipboard_core (env : ClipboardEnv) (id : ClipboardID) (s : ClientState) :
    core (sendClipboard env id s).1 = core s := by
  unfold sendClipboard
  dsimp only
  split
  · split <;> rfl
  · rfl

theorem sendClipboardAll_core (env : ClipboardEnv) (ids : List ClipboardID) (s : ClientState) :
    core (sendClipboardAll env ids s).1 = core s := by
  induction ids generalizing s with
  | nil => rfl
  | cons id rest ih =>
      unfold sendClipboardAll
      split
      · rw [ih, sendClipboard_core]
      · exact ih s

theorem leave_core (env : ClipboardEnv) (s : ClientState) :
    core (leave env s).1 = core s := by
  unfold leave
  rw [sendClipboardAll_core]
  rfl

theorem cleanupTimer_snd (s : ClientState) :
    (cleanupTimer s).2 = [Action.cleanupTimerCall] := by
  unfold cleanupTimer
  split <;> rfl

theorem cleanupScreen_snd (s : ClientState) :
    (cleanupScreen s).2 =
      Action.cleanupScreenCall ::
        (if s.server = true then (if s.ready = true then [Action.screenDisable] else [])
         else []) := by
  unfold cleanupScreen
  split <;> simp_all

theorem cleanupConnecting_snd (s : ClientState) :
    (cleanupConnecting s).2 = [Action.cleanupConnectingCall] := by
  unfold cleanupConnecting
  split <;> rfl

theorem cleanupConnection_snd (s : ClientState) :
    (cleanupConnection s).2 =
      if s.stream = true then [Action.cleanupConnectionCall, Action.streamDestroyed]
      else [Action.cleanupConnectionCall] := by
  unfold cleanupConnection
  split <;> simp_all

theorem destroyStream_snd (s : ClientState) :
    (destroyStream s).2 =
      if s.stream = true then [Action.streamDestroyed] else [] := by
  unfold destroyStream
  split <;> simp_all

theorem Inv_init (name : String) (cm : Bool) : Inv (initState name cm) := by
  simp [Inv, initState]

theorem Inv_connect (env : ConnectEnv) (s : ClientState) (hs : Inv s) :
    Inv (connect env s).1 := by
  obtain ⟨h1, h2, h3, h4, h5, h6, h7, h8⟩ := hs
  rcases env with ⟨re, ce⟩
  unfold connect
  dsimp only
  cases re <;> cases ce <;>
    simp only [cleanupTimer_fst, cleanupConnecting_fst, destroyStream_fst] <;>
    split_ifs <;>
    simp_all [Inv]

theorem Inv_disconnect (msg : Option String) (s : ClientState) (hs : Inv s) :
    Inv (disconnect msg s).1 := by
  obtain ⟨h1, h2, h3, h4, h5, h6, h7, h8⟩ := hs
  unfold disconnect
  dsimp only
  simp only [cleanupTimer_fst, cleanupScreen_fst, cleanupConnecting_fst, cleanupConnection_fst]
  split_ifs <;> simp_all [Inv]

theorem Inv_step {s s' : ClientState} (hs : Inv s) (hstep : Step s s') : Inv s' := by
  cases hstep with
  | connect env s => exact Inv_connect env s hs
  | disconnect msg s => exact Inv_disconnect msg s hs
  | setDecryptIv iv s =>
      unfold setDecryptIv
      split <;> exact hs
  | suspend s =>
      refine Inv_of_core ?_ (Inv_disconnect none { s with suspended := true }
        (Inv_of_core (by rfl) hs))
      unfold handleSuspend
      rfl
  | resume env s =>
      unfold handleResume
      dsimp only
      split
      · exact Inv_connect env _ (Inv_of_core (by rfl) hs)
      · exact Inv_of_core (by rfl) hs
  | connected s h =>
      obtain ⟨h1, h2, h3, h4, h5, h6, h7, h8⟩ := hs
      unfold handleConnected
      simp only [cleanupConnecting_fst]
      split_ifs <;> simp_all [Inv]
  | connectionFailed msg s h =>
      obtain ⟨h1, h2, h3, h4, h5, h6, h7, h8⟩ := hs
      unfold handleConnectionFailed
      simp only [cleanupTimer_fst, cleanupConnecting_fst, destroyStream_fst]
      split_ifs <;> simp_all [Inv]
  | connectTimeout s h =>
      obtain ⟨h1, h2, h3, h4, h5, h6, h7, h8⟩ := hs
      unfold handleConnectTimeout
      simp only [cleanupTimer_fst, cleanupConnecting_fst, cleanupConnection_fst,
        destroyStream_fst]
      split_ifs <;> simp_all [Inv]
  | outputError s h =>
      obtain ⟨h1, h2, h3, h4, h5, h6, h7, h8⟩ := hs
      unfold handleOutputError
      simp only [cleanupTimer_fst, cleanupScreen_fst, cleanupConnection_fst]
      split_ifs <;> simp_all [Inv]
  | disconnected s h =>
      obtain ⟨h1, h2, h3, h4, h5, h6, h7, h8⟩ := hs
      unfold handleDisconnected
      simp only [cleanupTimer_fst, cleanupScreen_fst, cleanupConnection_fst]
      split_ifs <;> simp_all [Inv]
  | hello hi r s h h2 =>
      obtain ⟨g1, g2, g3, g4, g5, g6, g7, g8⟩ := hs
      rcases hi with _ | ⟨maj, min⟩ <;>
        unfold handleHello setupScreen <;>
        dsimp only <;>
        simp only [cleanupTimer_fst, cleanupConnection_fst] <;>
        split_ifs <;> simp_all [Inv]
  | shapeChanged s h => exact hs
  | clipboardGrabbed env id s h =>
      refine Inv_of_core ?_ hs
      unfold handleClipboardGrabbed
      dsimp only
      split
      · rfl
      · rw [sendClipboard_core]
        rfl
  | enter x y mask s h => exact Inv_of_core (by rfl) hs
  | leave env s h => exact Inv_of_core (leave_core env s).symm hs
  | setClipboard id s h => exact Inv_of_core (by rfl) hs
  | grabClipboard id s h => exact Inv_of_core (by rfl) hs
  | handshakeComplete s h => exact Inv_of_core (by rfl) hs

theorem Inv_reachable {s : ClientState} (hr : Reachable s) : Inv s := by
  induction hr with
  | init name cm => exact Inv_init name cm
  | step _ hstep ih => exact Inv_step ih hstep

/-- C8: `disconnect(msg)` performs full teardown and then emits exactly one
lifecycle event: ConnectionFailed carrying `msg` with retry hint true when a
message is supplied, Disconnected otherwise; no ConnectionFailed with a false
retry hint is ever queued, and `sendConnectionFailedEvent` always sets
retry to true. -/
theorem C8_disconnect_lifecycle (msg : Option String) (s : ClientState) :
    (disconnect msg s).1.timer = false ∧ (disconnect msg s).1.server = false ∧
    (disconnect msg s).1.stream = false ∧
    teardownPrecedesEmit (disconnect msg s).2 = true ∧
    lifecycleEvents (disconnect msg s).2 =
      [match msg with
       | some m => Action.emitConnectionFailed m true
       | none => Action.emitDisconnected] ∧
    retryFalseEvents (disconnect msg s).2 = [] ∧
    (∀ m, sendConnectionFailedEvent m = Action.emitConnectionFailed m true) := by
  unfold disconnect
  dsimp only
  simp only [cleanupTimer_fst, cleanupTimer_snd, cleanupScreen_fst, cleanupScreen_snd,
    cleanupConnecting_fst, cleanupConnecting_snd, cleanupConnection_fst, cleanupConnection_snd]
  rcases msg with _ | m <;>
    split_ifs <;>
    simp_all [teardownPrecedesEmit, lifecycleEvents, retryFalseEvents, isLifecycleEmit,
      isTeardown, sendConnectionFailedEvent]

/-- C9: every call to `disconnect(msg)` clears the connect-on-resume flag, for
any message and any starting state; the suspend handler is the code that
re-establishes the flag, and it does so by running `disconnect(nil)` to
completion first and only then overwriting the flag with the snapshotted
was-connected value. -/
theorem C9_disconnect_clears_connectOnResume (msg : Option String) (s : ClientState) :
    (disconnect msg s).1.connectOnResume = false ∧
    handleSuspend s =
      ({ (disconnect none { s with suspended := true }).1 with connectOnResume := s.server },
        (disconnect none { s with suspended := true }).2) := by
  constructor
  · unfold disconnect
    dsimp only
    simp only [cleanupTimer_fst, cleanupScreen_fst, cleanupConnecting_fst, cleanupConnection_fst]
    split_ifs <;> rfl
  · rfl

/-- C10: calling `setDecryptIv` while `m_cryptoStream` is null (crypto disabled,
or before any connect built a crypto stream) is a safe no-op: the state is
returned unchanged and no crypto-layer call is made, for every iv. -/
theorem C10_setDecryptIv_noop (iv : List Nat) (s : ClientState)
    (h : s.cryptoStream = false) : setDecryptIv iv s = (s, []) := by
  unfold setDecryptIv
  simp [h]

/-- C10 witness: at the freshly constructed client (crypto disabled), a concrete
iv is discarded without effect. -/
theorem C10_witness :
    setDecryptIv [1, 2, 3] (initState "myclient" false) = (initState "myclient" false, []) :=
  C10_setDecryptIv_noop [1, 2, 3] (initState "myclient" false) (by rfl)

/-- C6: `connect()` builds a stream pipeline and initiates a transport
connection only when no stream exists and the session is not suspended; with a
live stream it returns with the state unchanged and no effects; while
suspended (and streamless) it records connect-on-resume and does nothing
else. -/
theorem C6_connect_frame (env : ConnectEnv) (s : ClientState) :
    (s.stream = true → connect env s = (s, [])) ∧
    (s.stream = false → s.suspended = true →
      connect env s = ({ s with connectOnResume := true }, [])) ∧
    (Action.transportConnect ∈ (connect env s).2 →
      s.stream = false ∧ s.suspended = false ∧
      env.resolveErr = none ∧ env.connectErr = none) ∧
    (s.stream = false → s.suspended = false → env.resolveErr = none → env.connectErr = none →
      connect env s =
        ({ s with stream := true, cryptoStream := s.cryptoMode || s.cryptoStream,
                  connectingSub := true, timer := true },
          [Action.transportConnect])) := by
  rcases env with ⟨re, ce⟩
  unfold connect
  dsimp only
  rcases re with _ | rmsg <;> rcases ce with _ | cmsg <;>
    split_ifs <;>
    simp_all [cleanupTimer_fst, cleanupTimer_snd, cleanupConnecting_fst, cleanupConnecting_snd,
      destroyStream_fst, destroyStream_snd, sendConnectionFailedEvent]

/-- C6 witness: from the freshly constructed state a clean connect builds the
pipeline and asks the transport to connect exactly once, and a second connect
right after is a no-op. -/
theorem C6_witness :
    connect ⟨none, none⟩ (initState "myclient" false) =
      ({ (initState "myclient" false) with
           stream := true, cryptoStream := false,
           connectingSub := true, timer := true }, [Action.transportConnect]) ∧
    connect ⟨none, none⟩ (connect ⟨none, none⟩ (initState "myclient" false)).1 =
      ((connect ⟨none, none⟩ (initState "myclient" false)).1, []) := by
  constructor
  · exact (C6_connect_frame ⟨none, none⟩ (initState "myclient" false)).2.2.2
      rfl rfl rfl rfl
  · exact (C6_connect_frame ⟨none, none⟩
      (connect ⟨none, none⟩ (initState "myclient" false)).1).1 rfl

/-- C2: on Hello(major, minor): if (major, minor) is lexicographically at least
the compiled-in (MAJOR, MINOR), the client answers HelloBack with its own
compiled version and name and proceeds toward Active (the server proxy is
constructed, no failure event); otherwise it queues ConnectionFailed naming
the incompatible version, tears down timer and stream, and sends no
HelloBack. -/
theorem C2_version_check (major minor : Int) (r : Bool) (s : ClientState) :
    (kProtocolMajorVersion < major ∨
        (kProtocolMajorVersion = major ∧ kProtocolMinorVersion ≤ minor) →
      (handleHello (some (major, minor)) r s).2 =
        Action.sendHelloBack kProtocolMajorVersion kProtocolMinorVersion s.name ::
          (Action.cleanupTimerCall ::
            (if r = true then [Action.synthesizeInputReady] else [])) ∧
      (handleHello (some (major, minor)) r s).1.server = true ∧
      lifecycleEvents (handleHello (some (major, minor)) r s).2 = []) ∧
    (¬(kProtocolMajorVersion < major ∨
        (kProtocolMajorVersion = major ∧ kProtocolMinorVersion ≤ minor)) →
      lifecycleEvents (handleHello (some (major, minor)) r s).2 =
        [Action.emitConnectionFailed (incompatibleVersionMsg major minor) true] ∧
      (∀ a b nm, Action.sendHelloBack a b nm ∉ (handleHello (some (major, minor)) r s).2) ∧
      (handleHello (some (major, minor)) r s).1.stream = false ∧
      (handleHello (some (major, minor)) r s).1.timer = false ∧
      (handleHello (some (major, minor)) r s).1.server = s.server) := by
  unfold handleHello setupScreen
  dsimp only
  constructor
  · intro hge
    have hver : ¬(major < kProtocolMajorVersion ∨
        (major = kProtocolMajorVersion ∧ minor < kProtocolMinorVersion)) := by
      simp only [kProtocolMajorVersion, kProtocolMinorVersion] at hge ⊢
      omega
    simp only [if_neg hver, cleanupTimer_fst, cleanupTimer_snd]
    refine ⟨by simp, by simp, ?_⟩
    split_ifs <;> simp [lifecycleEvents, isLifecycleEmit]
  · intro hlt
    have hver : major < kProtocolMajorVersion ∨
        (major = kProtocolMajorVersion ∧ minor < kProtocolMinorVersion) := by
      simp only [kProtocolMajorVersion, kProtocolMinorVersion] at hlt ⊢
      omega
    simp only [if_pos hver, cleanupTimer_fst, cleanupTimer_snd, cleanupConnection_fst,
      cleanupConnection_snd, sendConnectionFailedEvent]
    split_ifs <;> simp_all [lifecycleEvents, isLifecycleEmit]

/-- C2 witness: a (1,2) server is rejected with the message naming 1.2 and no
HelloBack; a (1,6) server is answered with HelloBack and the proxy is
built. -/
theorem C2_witness :
    lifecycleEvents (handleHello (some (1, 2)) false (initState "myclient" false)).2 =
      [Action.emitConnectionFailed "incompatible version 1.2" true] ∧
    (handleHello (some (1, 6)) false (initState "myclient" false)).1.server = true := by
  constructor
  · exact ((C2_version_check 1 2 false (initState "myclient" false)).2 (by decide)).1
  · exact ((C2_version_check 1 6 false (initState "myclient" false)).1 (by decide)).2.1

/-- C4: on suspend the client snapshots was-connected (server proxy present),
runs the internal disconnect with no message (which performs teardown and
queues exactly a Disconnected event), and then sets connect-on-resume to the
snapshot; on resume it clears suspended and, iff connect-on-resume was set,
clears the flag and makes exactly one connect attempt; in particular a
suspend in a connected state followed by a clean resume issues exactly one
transport connect. -/
theorem C4_suspend_resume (env : ConnectEnv) (s : ClientState) :
    ((handleSuspend s).1.connectOnResume = s.server ∧
      (handleSuspend s).1.suspended = true ∧
      (handleSuspend s).1.server = false ∧ (handleSuspend s).1.stream = false ∧
      lifecycleEvents (handleSuspend s).2 = [Action.emitDisconnected]) ∧
    ((handleResume env s).1.suspended = false) ∧
    (s.connectOnResume = true →
      handleResume env s = connect env { s with suspended := false, connectOnResume := false }) ∧
    (s.connectOnResume = false → handleResume env s = ({ s with suspended := false }, [])) ∧
    ((handleResume ⟨none, none⟩ (handleSuspend s).1).2 =
      if s.server = true then [Action.transportConnect] else []) := by
  refine ⟨?_, ?_, ?_, ?_, ?_⟩
  · unfold handleSuspend disconnect
    dsimp only
    simp only [cleanupTimer_fst, cleanupTimer_snd, cleanupScreen_fst, cleanupScreen_snd,
      cleanupConnecting_fst, cleanupConnecting_snd, cleanupConnection_fst, cleanupConnection_snd]
    split_ifs <;> simp_all [lifecycleEvents, isLifecycleEmit]
  · unfold handleResume connect
    dsimp only
    rcases env with ⟨re, ce⟩
    rcases re with _ | rmsg <;> rcases ce with _ | cmsg <;>
      split_ifs <;>
      simp_all [cleanupTimer_fst, cleanupConnecting_fst, destroyStream_fst]
  · intro hflag
    unfold handleResume
    dsimp only
    rw [if_pos]
    exact hflag
  · intro hflag
    unfold handleResume
    dsimp only
    rw [if_neg]
    simp [hflag]
  · unfold handleSuspend disconnect
    dsimp only
    simp only [cleanupTimer_fst, cleanupScreen_fst, cleanupConnecting_fst, cleanupConnection_fst]
    split_ifs <;>
      simp_all [handleResume, connect, cleanupTimer_fst, cleanupTimer_snd,
        cleanupConnecting_fst, cleanupConnecting_snd, destroyStream_fst, destroyStream_snd]

/-- C4 witness: from a concrete connected state (stream, proxy, screen
subscriptions present), suspend emits Disconnected and records
connect-on-resume, and the following resume issues exactly one transport
connect; from the fresh state (not connected) a resume after suspend issues
none. -/
theorem C4_witness :
    (handleSuspend { (initState "myclient" false) with
        stream := true, server := true, screenSub := true, connectionSub := true,
        ready := true }).1.connectOnResume = true ∧
    (handleResume ⟨none, none⟩ (handleSuspend { (initState "myclient" false) with
        stream := true, server := true, screenSub := true, connectionSub := true,
        ready := true }).1).2 = [Action.transportConnect] ∧
    (handleResume ⟨none, none⟩ (handleSuspend (initState "myclient" false)).1).2 = [] := by
  refine ⟨?_, ?_, ?_⟩
  · exact (C4_suspend_resume ⟨none, none⟩ _).1.1
  · exact ((C4_suspend_resume ⟨none, none⟩ { (initState "myclient" false) with
        stream := true, server := true, screenSub := true, connectionSub := true,
        ready := true }).2.2.2.2).trans (by decide)
  · exact ((C4_suspend_resume ⟨none, none⟩ (initState "myclient" false)).2.2.2.2).trans
      (by decide)

/-- C7: when the screen reports a local clipboard grab on slot id, the client
first notifies the remote of ownership (the notification is the head of the
trace, before any payload bytes), marks the slot owned and unsent with
timestamp 0, and transmits the payload immediately if and only if the session
is not active (in which case the single transmission carries the slot's
current marshalled bytes). -/
theorem C7_clipboard_grab (env : ClipboardEnv) (id : ClipboardID) (s : ClientState) :
    (handleClipboardGrabbed env id s).2 =
      (if s.active = true then [Action.notifyGrabClipboard id]
       else [Action.notifyGrabClipboard id, Action.clipboardOpen 0,
             Action.transmitClipboard id (env.data id)]) ∧
    (handleClipboardGrabbed env id s).1.ownClipboard id = true ∧
    (s.active = true →
      (handleClipboardGrabbed env id s).1.sentClipboard id = false ∧
      (handleClipboardGrabbed env id s).1.timeClipboard id = 0) := by
  unfold handleClipboardGrabbed sendClipboard
  dsimp only
  split_ifs with h1 h2 h3 <;>
    simp_all [Function.update_same]

/-- C7 witness: at an inactive concrete state, a grab of slot 0 notifies first
and then transmits the current bytes; at an active one it only notifies. -/
theorem C7_witness :
    (handleClipboardGrabbed ⟨fun _ => 7, fun _ => "payload"⟩ 0 (initState "myclient" false)).2 =
      [Action.notifyGrabClipboard 0, Action.clipboardOpen 0,
       Action.transmitClipboard 0 "payload"] ∧
    (handleClipboardGrabbed ⟨fun _ => 7, fun _ => "payload"⟩ 0
        { (initState "myclient" false) with active := true }).2 =
      [Action.notifyGrabClipboard 0] ∧
    (handleClipboardGrabbed ⟨fun _ => 7, fun _ => "payload"⟩ 0
        { (initState "myclient" false) with active := true }).1.sentClipboard 0 = false := by
  refine ⟨?_, ?_, ?_⟩
  · exact ((C7_clipboard_grab ⟨fun _ => 7, fun _ => "payload"⟩ 0
      (initState "myclient" false)).1).trans (by decide)
  · exact ((C7_clipboard_grab ⟨fun _ => 7, fun _ => "payload"⟩ 0
      { (initState "myclient" false) with active := true }).1).trans (by decide)
  · exact ((C7_clipboard_grab ⟨fun _ => 7, fun _ => "payload"⟩ 0
      { (initState "myclient" false) with active := true }).2.2 rfl).1

theorem transmitted_append (a b : List Action) :
    transmitted (a ++ b) = transmitted a ++ transmitted b :=
  List.filter_append _ _

theorem sendClipboard_own (env : ClipboardEnv) (id : ClipboardID) (s : ClientState) :
    (sendClipboard env id s).1.ownClipboard = s.ownClipboard := by
  unfold sendClipboard
  dsimp only
  split_ifs <;> rfl

theorem sendClipboard_other (env : ClipboardEnv) (id2 : ClipboardID) (s : ClientState)
    (id : ClipboardID) (hne : id ≠ id2) :
    (sendClipboard env id2 s).1.timeClipboard id = s.timeClipboard id ∧
    (sendClipboard env id2 s).1.sentClipboard id = s.sentClipboard id ∧
    (sendClipboard env id2 s).1.dataClipboard id = s.dataClipboard id := by
  unfold sendClipboard
  dsimp only
  split_ifs <;> simp [Function.update_noteq hne]

theorem sendClipboard_trace_congr (env : ClipboardEnv) (id : ClipboardID)
    {s t : ClientState}
    (ht : s.timeClipboard id = t.timeClipboard id)
    (hsent : s.sentClipboard id = t.sentClipboard id)
    (hdata : s.dataClipboard id = t.dataClipboard id) :
    (sendClipboard env id s).2 = (sendClipboard env id t).2 := by
  unfold sendClipboard
  dsimp only
  rw [ht, hsent, hdata]
  split_ifs <;> rfl

theorem sendClipboard_transmit_mem (env : ClipboardEnv) (id : ClipboardID) (s : ClientState)
    (j : ClipboardID) (d : String)
    (h : Action.transmitClipboard j d ∈ (sendClipboard env id s).2) :
    j = id ∧ d = env.data id := by
  unfold sendClipboard at h
  dsimp only at h
  split_ifs at h <;> simp_all

theorem sendClipboardAll_transmit (env : ClipboardEnv) (ids : List ClipboardID) :
    ∀ s : ClientState, ∀ j : ClipboardID, ∀ d : String,
    Action.transmitClipboard j d ∈ (sendClipboardAll env ids s).2 →
    s.ownClipboard j = true ∧ d = env.data j := by
  induction ids with
  | nil =>
      intro s j d h
      simp [sendClipboardAll] at h
  | cons id rest ih =>
      intro s j d h
      unfold sendClipboardAll at h
      by_cases hown : s.ownClipboard id = true
      · rw [if_pos hown] at h
        dsimp only at h
        rcases List.mem_append.mp h with hm | hm
        · obtain ⟨hj, hd⟩ := sendClipboard_transmit_mem env id s j d hm
          subst hj
          exact ⟨hown, hd⟩
        · have := ih (sendClipboard env id s).1 j d hm
          rwa [sendClipboard_own] at this
      · rw [if_neg hown] at h
        exact ih s j d h

theorem sendClipboard_post_quiet (env : ClipboardEnv) (id : ClipboardID) (s : ClientState) :
    transmitted (sendClipboard env id ((sendClipboard env id s).1)).2 = [] := by
  unfold sendClipboard
  dsimp only
  split_ifs <;> simp_all [transmitted, Function.update_same]

theorem sendClipboard_quiet_mono (env : ClipboardEnv) (id id2 : ClipboardID) (s : ClientState)
    (h : transmitted (sendClipboard env id s).2 = []) :
    transmitted (sendClipboard env id ((sendClipboard env id2 s).1)).2 = [] := by
  by_cases hne : id = id2
  · subst hne
    exact sendClipboard_post_quiet env id s
  · obtain ⟨e1, e2, e3⟩ := sendClipboard_other env id2 s id hne
    rw [sendClipboard_trace_congr env id e1 e2 e3]
    exact h

theorem sendClipboardAll_quiet_mono (env : ClipboardEnv) (id : ClipboardID)
    (ids : List ClipboardID) :
    ∀ s : ClientState, transmitted (sendClipboard env id s).2 = [] →
    transmitted (sendClipboard env id ((sendClipboardAll env ids s).1)).2 = [] := by
  induction ids with
  | nil => intro s h; exact h
  | cons id2 rest ih =>
      intro s h
      unfold sendClipboardAll
      by_cases hown : s.ownClipboard id2 = true
      · rw [if_pos hown]
        dsimp only
        exact ih _ (sendClipboard_quiet_mono env id id2 s h)
      · rw [if_neg hown]
        exact ih s h

theorem sendClipboardAll_post_quiet (env : ClipboardEnv) (ids : List ClipboardID) :
    ∀ s : ClientState, ∀ id : ClipboardID, id ∈ ids → s.ownClipboard id = true →
    transmitted (sendClipboard env id ((sendClipboardAll env ids s).1)).2 = [] := by
  induction ids with
  | nil =>
      intro s id h
      simp at h
  | cons id2 rest ih =>
      intro s id hmem hown
      unfold sendClipboardAll
      by_cases hown2 : s.ownClipboard id2 = true
      · rw [if_pos hown2]
        dsimp only
        rcases List.mem_cons.mp hmem with heq | hmem2
        · subst heq
          exact sendClipboardAll_quiet_mono env id rest _ (sendClipboard_post_quiet env id s)
        · exact ih (sendClipboard env id2 s).1 id hmem2 (by
            rw [sendClipboard_own]
            exact hown)
      · rw [if_neg hown2]
        rcases List.mem_cons.mp hmem with heq | hmem2
        · subst heq
          exact absurd hown hown2
        · exact ih s id hmem2 hown

theorem sendClipboardAll_quiet (env : ClipboardEnv) (ids : List ClipboardID) :
    ∀ s : ClientState,
    (∀ id ∈ ids, s.ownClipboard id = true →
      transmitted (sendClipboard env id s).2 = []) →
    transmitted (sendClipboardAll env ids s).2 = [] := by
  induction ids with
  | nil => intro s _; rfl
  | cons id2 rest ih =>
      intro s h
      unfold sendClipboardAll
      by_cases hown2 : s.ownClipboard id2 = true
      · rw [if_pos hown2]
        dsimp only
        rw [transmitted_append, h id2 (List.mem_cons_self id2 rest) hown2, List.nil_append]
        refine ih (sendClipboard env id2 s).1 fun j hj hjown => ?_
        refine sendClipboard_quiet_mono env j id2 s ?_
        refine h j (List.mem_cons_of_mem _ hj) ?_
        rwa [sendClipboard_own] at hjown
      · rw [if_neg hown2]
        exact ih s fun j hj => h j (List.mem_cons_of_mem _ hj)

theorem sendClipboardAll_own (env : ClipboardEnv) (ids : List ClipboardID) :
    ∀ s : ClientState, (sendClipboardAll env ids s).1.ownClipboard = s.ownClipboard := by
  induction ids with
  | nil => intro s; rfl
  | cons id2 rest ih =>
      intro s
      unfold sendClipboardAll
      by_cases hown : s.ownClipboard id2 = true
      · rw [if_pos hown]
        dsimp only
        rw [ih, sendClipboard_own]
      · rw [if_neg hown]
        exact ih s

/-- C3: sending a clipboard slot opens the system clipboard announcing the
last-seen timestamp; when the timestamp was 0 or the fetched one differs, the
slot's timestamp is updated and the marshalled bytes are transmitted exactly
when the slot is unsent or the bytes differ from the last payload (recording
them and marking the slot sent); `leave()` flushes exactly the owned slots
with their current bytes, and a second `leave()` under an unchanged clipboard
retransmits nothing. -/
theorem C3_clipboard_send (env : ClipboardEnv) (s : ClientState) (id : ClipboardID) :
    ((sendClipboard env id s).2.head? = some (Action.clipboardOpen (s.timeClipboard id))) ∧
    ((sendClipboard env id s).1.timeClipboard id =
      if s.timeClipboard id = 0 ∨ env.time id ≠ s.timeClipboard id then env.time id
      else s.timeClipboard id) ∧
    (transmitted (sendClipboard env id s).2 =
      if (s.timeClipboard id = 0 ∨ env.time id ≠ s.timeClipboard id) ∧
          (s.sentClipboard id = false ∨ env.data id ≠ s.dataClipboard id)
      then [Action.transmitClipboard id (env.data id)] else []) ∧
    ((sendClipboard env id s).1.sentClipboard id =
      if (s.timeClipboard id = 0 ∨ env.time id ≠ s.timeClipboard id) ∧
          (s.sentClipboard id = false ∨ env.data id ≠ s.dataClipboard id)
      then true else s.sentClipboard id) ∧
    ((sendClipboard env id s).1.dataClipboard id =
      if (s.timeClipboard id = 0 ∨ env.time id ≠ s.timeClipboard id) ∧
          (s.sentClipboard id = false ∨ env.data id ≠ s.dataClipboard id)
      then env.data id else s.dataClipboard id) ∧
    (∀ j d, Action.transmitClipboard j d ∈ (leave env s).2 →
      s.ownClipboard j = true ∧ d = env.data j) ∧
    (transmitted (leave env (leave env s).1).2 = []) := by
  refine ⟨?_, ?_, ?_, ?_, ?_, ?_, ?_⟩
  · unfold sendClipboard
    dsimp only
    split_ifs <;> rfl
  · unfold sendClipboard
    dsimp only
    split_ifs <;> simp_all [Function.update_same]
  · unfold sendClipboard
    dsimp only
    split_ifs <;> simp_all [transmitted]
  · unfold sendClipboard
    dsimp only
    split_ifs <;> simp_all [Function.update_same]
  · unfold sendClipboard
    dsimp only
    split_ifs <;> simp_all [Function.update_same]
  · intro j d hmem
    unfold leave at hmem
    dsimp only at hmem
    rcases List.mem_cons.mp hmem with heq | hmem2
    · exact absurd heq (by simp)
    · exact sendClipboardAll_transmit env (List.finRange kClipboardEnd)
        { s with active := false } j d hmem2
  · show transmitted (sendClipboardAll env (List.finRange kClipboardEnd)
      { ((leave env s).1) with active := false }).2 = []
    refine sendClipboardAll_quiet env (List.finRange kClipboardEnd) _ fun id2 hm hown => ?_
    have hown2 : ({ s with active := false } : ClientState).ownClipboard id2 = true := by
      rw [← sendClipboardAll_own env (List.finRange kClipboardEnd) { s with active := false }]
      exact hown
    exact (congrArg transmitted (sendClipboard_trace_congr env id2
        (s := { ((leave env s).1) with active := false })
        (t := (sendClipboardAll env (List.finRange kClipboardEnd)
          { s with active := false }).1) rfl rfl rfl)).trans
      (sendClipboardAll_post_quiet env (List.finRange kClipboardEnd)
        { s with active := false } id2 hm hown2)

/-- A clipboard environment for the C3 witness: each slot currently holds
timestamp 5 and marshalled bytes "bytes". -/
def clipboardEnvW : ClipboardEnv := ⟨fun _ => 5, fun _ => "bytes"⟩

/-- An active session state for the C3 witness in which slot 0 was just grabbed
locally (owned, unsent, timestamp 0). -/
def grabbedStateW : ClientState :=
  { (initState "myclient" false) with
      stream := true, server := true, connectionSub := true, screenSub := true,
      active := true,
      ownClipboard := Function.update (fun _ => false) 0 true }

/-- C3 witness: with slot 0 grabbed locally during an active session, the first
leave transmits the marshalled bytes exactly once and a second leave with an
unchanged clipboard transmits nothing. -/
theorem C3_witness :
    transmitted (leave clipboardEnvW grabbedStateW).2 = [Action.transmitClipboard 0 "bytes"] ∧
    transmitted (leave clipboardEnvW (leave clipboardEnvW grabbedStateW).1).2 = [] := by
  constructor
  · decide
  · exact (C3_clipboard_send clipboardEnvW grabbedStateW 0).2.2.2.2.2.2

/-- C5: in every state reachable by a sequence of completed handler invocations,
a present handshake timer implies the machine is in Connecting or
AwaitingHello (hence the timer is absent whenever the server proxy exists), a
present server proxy implies Active, and a present stream implies the machine
is not Idle. -/
theorem C5_reachable_invariants (s : ClientState) (hr : Reachable s) :
    (s.timer = true →
      (phase s = Phase.Connecting ∨ phase s = Phase.AwaitingHello) ∧ s.server = false) ∧
    (s.server = true → phase s = Phase.Active) ∧
    (s.stream = true → phase s ≠ Phase.Idle) := by
  obtain ⟨h1, h2, h3, h4, h5, h6, h7, h8⟩ := Inv_reachable hr
  refine ⟨fun ht => ?_, fun hsv => ?_, fun hst => ?_⟩
  · obtain ⟨hsv, hsub⟩ := h1 ht
    refine ⟨?_, hsv⟩
    by_cases hcn : s.connectionSub = true
    · right
      simp [phase, hsv, hcn]
    · left
      have hcg : s.connectingSub = true := hsub.resolve_right hcn
      simp [phase, hsv, hcn, hcg]
  · simp [phase, hsv]
  · intro hphase
    unfold phase at hphase
    rcases h2 hst with h | h | h <;> split_ifs at hphase


/-- C5 witness: the state after one clean connect from the fresh client is
reachable; there the timer is present and the theorem places the machine in
Connecting or AwaitingHello. -/
theorem C5_witness :
    phase (connect ⟨none, none⟩ (initState "myclient" false)).1 = Phase.Connecting ∨
    phase (connect ⟨none, none⟩ (initState "myclient" false)).1 = Phase.AwaitingHello :=
  ((C5_reachable_invariants (connect ⟨none, none⟩ (initState "myclient" false)).1
    (Reachable.step (Reachable.init "myclient" false)
      (Step.connect ⟨none, none⟩ (initState "myclient" false)))).1 (by decide)).1

/-- A concrete AwaitingHello state (stream, connection subscriptions and timer
present) used to exhibit the C1 failure. -/
def awaitingHelloW : ClientState :=
  { (initState "myclient" false) with stream := true, timer := true, connectionSub := true }

/-- C1 counterexample: on the protocol-error failure path of `handleHello`
(lines 687-692 of CClient.cpp) the ConnectionFailed event is queued BEFORE
`cleanupTimer` and `cleanupConnection` run, so at a concrete AwaitingHello
state the failure trace does not perform teardown before emitting the
lifecycle event. -/
theorem C1_counterexample :
    teardownPrecedesEmit (handleHello none false awaitingHelloW).2 = false := by
  decide

/-- C1 (amended): every failure path completes full teardown before the handler
returns (the post-state has no timer, no screen setup, no connection); on the
resolution-failure, transport-connect-failure, handshake-timeout,
output-error, peer-disconnect and disconnect() paths every teardown step also
precedes the lifecycle emission, while on the two `handleHello` failure paths
(protocol error, incompatible version) the ConnectionFailed event is queued
first and the teardown steps follow inside the same handler invocation. -/
theorem C1_teardown_policy (s : ClientState) (m : String) (msg : Option String)
    (a b : Int) (r : Bool) :
    (s.stream = false → s.suspended = false →
      teardownPrecedesEmit (connect ⟨some m, none⟩ s).2 = true) ∧
    (s.stream = false → s.suspended = false →
      teardownPrecedesEmit (connect ⟨none, some m⟩ s).2 = true ∧
      (connect ⟨none, some m⟩ s).1.timer = false ∧
      (connect ⟨none, some m⟩ s).1.stream = false) ∧
    teardownPrecedesEmit (handleConnectionFailed m s).2 = true ∧
    teardownPrecedesEmit (handleConnectTimeout s).2 = true ∧
    teardownPrecedesEmit (handleOutputError s).2 = true ∧
    teardownPrecedesEmit (handleDisconnected s).2 = true ∧
    teardownPrecedesEmit (disconnect msg s).2 = true ∧
    ((handleConnectionFailed m s).1.timer = false ∧
      (handleConnectionFailed m s).1.stream = false) ∧
    ((handleConnectTimeout s).1.timer = false ∧ (handleConnectTimeout s).1.stream = false) ∧
    ((handleOutputError s).1.timer = false ∧ (handleOutputError s).1.server = false ∧
      (handleOutputError s).1.stream = false) ∧
    ((handleDisconnected s).1.timer = false ∧ (handleDisconnected s).1.server = false ∧
      (handleDisconnected s).1.stream = false) ∧
    ((handleHello none r s).2.head? =
        some (Action.emitConnectionFailed "Protocol error from server" true) ∧
      (handleHello none r s).1.timer = false ∧ (handleHello none r s).1.stream = false) ∧
    (a < kProtocolMajorVersion ∨ (a = kProtocolMajorVersion ∧ b < kProtocolMinorVersion) →
      (handleHello (some (a, b)) r s).2.head? =
        some (Action.emitConnectionFailed (incompatibleVersionMsg a b) true) ∧
      (handleHello (some (a, b)) r s).1.timer = false ∧
      (handleHello (some (a, b)) r s).1.stream = false) := by
  refine ⟨fun h1 h2 => ?_, fun h1 h2 => ?_, ?_, ?_, ?_, ?_, ?_, ?_, ?_, ?_, ?_, ?_, ?_⟩
  · unfold connect
    simp only [h1, h2]
    simp [cleanupTimer_fst, cleanupTimer_snd, cleanupConnecting_fst, cleanupConnecting_snd,
      destroyStream_fst, destroyStream_snd, h1, sendConnectionFailedEvent,
      teardownPrecedesEmit, isLifecycleEmit, isTeardown]
  · unfold connect
    simp only [h1, h2]
    refine ⟨?_, ?_, ?_⟩ <;>
      simp [cleanupTimer_fst, cleanupTimer_snd, cleanupConnecting_fst, cleanupConnecting_snd,
        destroyStream_fst, destroyStream_snd, sendConnectionFailedEvent,
        teardownPrecedesEmit, isLifecycleEmit, isTeardown]
  · unfold handleConnectionFailed
    simp only [cleanupTimer_fst, cleanupTimer_snd, cleanupConnecting_fst, cleanupConnecting_snd,
      destroyStream_fst, destroyStream_snd]
    split_ifs <;>
      simp_all [sendConnectionFailedEvent, teardownPrecedesEmit, isLifecycleEmit, isTeardown]
  · unfold handleConnectTimeout
    simp only [cleanupTimer_fst, cleanupTimer_snd, cleanupConnecting_fst, cleanupConnecting_snd,
      cleanupConnection_fst, cleanupConnection_snd, destroyStream_fst, destroyStream_snd]
    split_ifs <;>
      simp_all [sendConnectionFailedEvent, teardownPrecedesEmit, isLifecycleEmit, isTeardown]
  · unfold handleOutputError
    simp only [cleanupTimer_fst, cleanupTimer_snd, cleanupScreen_fst, cleanupScreen_snd,
      cleanupConnection_fst, cleanupConnection_snd]
    split_ifs <;>
      simp_all [teardownPrecedesEmit, isLifecycleEmit, isTeardown]
  · unfold handleDisconnected
    simp only [cleanupTimer_fst, cleanupTimer_snd, cleanupScreen_fst, cleanupScreen_snd,
      cleanupConnection_fst, cleanupConnection_snd]
    split_ifs <;>
      simp_all [teardownPrecedesEmit, isLifecycleEmit, isTeardown]
  · unfold disconnect
    dsimp only
    simp only [cleanupTimer_fst, cleanupTimer_snd, cleanupScreen_fst, cleanupScreen_snd,
      cleanupConnecting_fst, cleanupConnecting_snd, cleanupConnection_fst, cleanupConnection_snd]
    rcases msg with _ | mm <;>
      split_ifs <;>
      simp_all [sendConnectionFailedEvent, teardownPrecedesEmit, isLifecycleEmit, isTeardown]
  · unfold handleConnectionFailed
    simp only [cleanupTimer_fst, cleanupConnecting_fst, destroyStream_fst]
    split_ifs <;> simp_all
  · unfold handleConnectTimeout
    simp only [cleanupTimer_fst, cleanupConnecting_fst, cleanupConnection_fst, destroyStream_fst]
    split_ifs <;> simp_all
  · unfold handleOutputError
    simp only [cleanupTimer_fst, cleanupScreen_fst, cleanupConnection_fst]
    split_ifs <;> simp_all
  · unfold handleDisconnected
    simp only [cleanupTimer_fst, cleanupScreen_fst, cleanupConnection_fst]
    split_ifs <;> simp_all
  · unfold handleHello
    dsimp only
    simp only [cleanupTimer_fst, cleanupTimer_snd, cleanupConnection_fst, cleanupConnection_snd]
    refine ⟨rfl, ?_, ?_⟩ <;> split_ifs <;> simp_all
  · intro hver
    unfold handleHello
    dsimp only
    rw [if_pos hver]
    simp only [cleanupTimer_fst, cleanupTimer_snd, cleanupConnection_fst, cleanupConnection_snd]
    refine ⟨rfl, ?_, ?_⟩ <;> split_ifs <;> simp_all

/-- C1 witness: concrete instances of the amended policy: a resolution failure
from the fresh state and a handshake timeout at a concrete AwaitingHello
state both tear down before emitting. -/
theorem C1_witness :
    teardownPrecedesEmit
      (connect ⟨some "lookup failed", none⟩ (initState "myclient" false)).2 = true ∧
    teardownPrecedesEmit (handleConnectTimeout awaitingHelloW).2 = true := by
  constructor
  · exact (C1_teardown_policy (initState "myclient" false) "lookup failed" none 0 0 false).1
      rfl rfl
  · exact (C1_teardown_policy awaitingHelloW "x" none 0 0 false).2.2.2.1

end SynergyClient
